import Mathlib

/-!
Shallow embedding of the image-meta-cleaner application core
(src/intents/design_editor/app.tsx). The embedding models:

* the raw tag set decoded by the external EXIF parser (`ExifData`),
* the projection of that tag set into the displayed record
  (`projectExif`, source: the `parsedMetadata` object literal),
* the privacy-risk classifier (`hasPrivacyRisks`),
* the session state and its handlers (`handleFileSelect`,
  `handleCleanMetadata` split into its begin/finish phases around the
  awaits, `handleReset`, `handleClick`, `handleDragStart`),
* the re-encoding pipeline (image decode, canvas draw, `canvasToBlob`).

External facilities (the exifr library, the browser canvas encoder) are
not code of this repository; where their behaviour decides a property
they are modelled from the spec, and each such definition is marked in
its doc comment.

JavaScript semantics that matter and are modelled explicitly:

* an object literal assigns every listed key, so a key may be present
  with an undefined value; `Object.keys` counts such keys
  (`metaKeyCount`),
* `a || b` on numbers falls through on 0, which is falsy (`jsOrNat`).
-/

namespace MetaCleaner

/-- Raw tag set as decoded by the external exifr parser (source:
the ExifData interface in declarations.d.ts). GPS latitude and
longitude are the precomputed signed decimal degrees, modelled as
rationals. Date tags reach the record through toString, which
preserves presence, so they are modelled as their string form. -/
structure ExifData where
  latitude : Option ℚ := none
  longitude : Option ℚ := none
  DateTime : Option String := none
  DateTimeOriginal : Option String := none
  Make : Option String := none
  Model : Option String := none
  Software : Option String := none
  ImageWidth : Option Nat := none
  ImageHeight : Option Nat := none
  ExifImageWidth : Option Nat := none
  ExifImageHeight : Option Nat := none
  Orientation : Option Nat := none
  Artist : Option String := none
  Copyright : Option String := none
deriving DecidableEq

/-- Displayed metadata record (source: the MetadataInfo interface).
Every field is optional; `raw` retains the whole decoded tag set. -/
structure MetadataInfo where
  latitude : Option ℚ := none
  longitude : Option ℚ := none
  dateTime : Option String := none
  dateTimeOriginal : Option String := none
  make : Option String := none
  model : Option String := none
  software : Option String := none
  imageWidth : Option Nat := none
  imageHeight : Option Nat := none
  orientation : Option Nat := none
  artist : Option String := none
  copyright : Option String := none
  raw : Option ExifData := none
deriving DecidableEq

/-- JavaScript `a || b` on optional numbers: a present nonzero value
wins, a present zero is falsy and falls through to `b`, absence falls
through to `b` (source: the ImageWidth and ImageHeight lines of the
parsedMetadata literal). -/
def jsOrNat (a b : Option Nat) : Option Nat :=
  match a with
  | some v => if v = 0 then b else some v
  | none => b

/-- Projection of the raw tag set into the displayed record (source:
the parsedMetadata object literal in handleFileSelect). Assigns every
key of the literal; toString on the date tags is presence-preserving
and modelled as the identity on the string form. -/
def projectExif (d : ExifData) : MetadataInfo :=
  { latitude := d.latitude
    longitude := d.longitude
    dateTime := d.DateTime
    dateTimeOriginal := d.DateTimeOriginal
    make := d.Make
    model := d.Model
    software := d.Software
    imageWidth := jsOrNat d.ImageWidth d.ExifImageWidth
    imageHeight := jsOrNat d.ImageHeight d.ExifImageHeight
    orientation := d.Orientation
    artist := d.Artist
    copyright := d.Copyright
    raw := some d }

/-- Value of the `metadata` React state: `null`, the empty object
literal set on parse failure, or the full parsedMetadata literal,
which assigns all thirteen keys (twelve named fields plus raw). -/
inductive MetaState where
  | null
  | emptyObj
  | full (m : MetadataInfo)
deriving DecidableEq

/-- Names of the twelve displayed fields of the record. -/
inductive FieldName where
  | latitude | longitude | dateTime | dateTimeOriginal | make | model
  | software | imageWidth | imageHeight | orientation | artist | copyright
deriving DecidableEq

/-- Whether a named field of the record is populated (value defined). -/
def fieldPopulated (m : MetadataInfo) : FieldName → Bool
  | .latitude => m.latitude.isSome
  | .longitude => m.longitude.isSome
  | .dateTime => m.dateTime.isSome
  | .dateTimeOriginal => m.dateTimeOriginal.isSome
  | .make => m.make.isSome
  | .model => m.model.isSome
  | .software => m.software.isSome
  | .imageWidth => m.imageWidth.isSome
  | .imageHeight => m.imageHeight.isSome
  | .orientation => m.orientation.isSome
  | .artist => m.artist.isSome
  | .copyright => m.copyright.isSome

/-- All twelve named fields. -/
def allFields : List FieldName :=
  [.latitude, .longitude, .dateTime, .dateTimeOriginal, .make, .model,
   .software, .imageWidth, .imageHeight, .orientation, .artist, .copyright]

/-- The risk-bearing fields per the spec: the GPS pair,
dateTimeOriginal, cameraMake, cameraModel, artist. -/
def riskFields : List FieldName :=
  [.latitude, .longitude, .dateTimeOriginal, .make, .model, .artist]

/-- Number of populated named fields of a record. -/
def namedPopulatedCount (m : MetadataInfo) : Nat :=
  allFields.countP (fun f => fieldPopulated m f)

/-- Field population lifted to the metadata state: a null or empty
object has every field undefined. -/
def metaPopulated : MetaState → FieldName → Bool
  | .null, _ => false
  | .emptyObj, _ => false
  | .full m, f => fieldPopulated m f

/-- Privacy-risk classifier (source: the hasPrivacyRisks expression).
On a null metadata state the JavaScript expression short-circuits to
a falsy value; on a record it is the disjunction of the definedness
of latitude, longitude, make, model, artist, dateTimeOriginal. -/
def hasPrivacyRisks : MetaState → Bool
  | .null => false
  | .emptyObj => false
  | .full m =>
      m.latitude.isSome || m.longitude.isSome || m.make.isSome ||
      m.model.isSome || m.artist.isSome || m.dateTimeOriginal.isSome

/-- Number of keys of the metadata object as Object.keys counts them:
the empty literal has none, the parsedMetadata literal assigns all
thirteen keys even when their values are undefined. The null state is
never shown, so its count is irrelevant; it is given 0. -/
def metaKeyCount : MetaState → Nat
  | .null => 0
  | .emptyObj => 0
  | .full _ => 13

/-- Truthiness of the raw key of the metadata object: absent on the
empty literal, an object value (always truthy, even when the mapping
is empty) when assigned. -/
def metaRawTruthy : MetaState → Bool
  | .null => false
  | .emptyObj => false
  | .full m => m.raw.isSome

/-- Display predicate for the no-metadata message (source: the
condition Object.keys(metadata).length === 0 ||
(Object.keys(metadata).length === 1 && metadata.raw) in the render). -/
def showNoMetadata (st : MetaState) : Bool :=
  metaKeyCount st == 0 || (metaKeyCount st == 1 && metaRawTruthy st)

/-- Encoded image byte stream, viewed structurally: the declared MIME
type, the natural decoded dimensions and raster carried by the pixel
data, the embedded metadata tag segments (none when the container has
no such segments), and, for streams produced by the canvas encoder,
the encoding quality that was applied. A user-selected File is also a
value of this type. -/
structure EncodedImage where
  mime : String
  natWidth : Nat
  natHeight : Nat
  pixels : List Nat
  tags : Option ExifData := none
  encQuality : Option ℚ := none
deriving DecidableEq

/-- Canvas drawing surface: after canvas.width/height are set from the
natural dimensions and ctx.drawImage runs, it holds only the decoded
pixel raster (source: handleCleanMetadata lines creating the canvas). -/
structure Canvas where
  width : Nat
  height : Nat
  pixels : List Nat
deriving DecidableEq

/-- Outcome of a call to the external exifr parser: a thrown error, a
null result, or a decoded tag set. -/
inductive ParseOutcome where
  | err
  | ok (d : Option ExifData)
deriving DecidableEq

/-- Value of the metadata state after the try/catch of
handleFileSelect (source: the if/else and catch branches): a thrown
error or a null result each set the empty literal, a decoded tag set
is projected through the parsedMetadata literal. -/
def extractRecord : ParseOutcome → MetaState
  | .err => .emptyObj
  | .ok none => .emptyObj
  | .ok (some d) => .full (projectExif d)

/-- Modelled from the spec (section 4.1): the external exifr parser
locates embedded metadata tag segments in the byte stream and decodes
them; a stream whose container carries no metadata segments yields no
data. This definition stands in for the exifr library, which is not
code of this repository. -/
def exifrParse (img : EncodedImage) : ParseOutcome :=
  .ok img.tags

/-- Extraction pipeline applied to a byte stream: external parse
followed by the try/catch projection of handleFileSelect. -/
def extractOf (img : EncodedImage) : MetaState :=
  extractRecord (exifrParse img)

/-- Processing state of the session (source: the ProcessingState
union type). -/
inductive ProcState where
  | idle | reading | cleaning | done
deriving DecidableEq

/-- React state of the App component (source: the useState hooks). -/
structure AppState where
  selectedFile : Option EncodedImage
  imagePreview : Option EncodedImage
  metadata : MetaState
  processingState : ProcState
  error : Option String
  cleanedImageUrl : Option EncodedImage
  cleanedImageSize : Option (Nat × Nat)
deriving DecidableEq

/-- Initial state of the session: every hook starts empty. -/
def initialState : AppState :=
  { selectedFile := none
    imagePreview := none
    metadata := .null
    processingState := .idle
    error := none
    cleanedImageUrl := none
    cleanedImageSize := none }

/-- Reset handler (source: handleReset): clears every piece of state. -/
def handleReset (_s : AppState) : AppState := initialState

/-- State updates of handleFileSelect that run before the parse
begins (source: the Reset state block and preview creation): clears
the error, the cleaned image URL and the metadata, installs the new
file and its preview, and enters the reading state. The cleaned image
size is not touched here. -/
def fileSelectReset (file : EncodedImage) (s : AppState) : AppState :=
  { s with
    error := none
    cleanedImageUrl := none
    metadata := .null
    selectedFile := some file
    processingState := .reading
    imagePreview := some file }

/-- File-selection handler (source: handleFileSelect), parameterised
by the behaviour of the external parser on the selected file. An
empty file list returns immediately; otherwise the pre-parse resets
run, the parse outcome is absorbed into the metadata state, and the
processing state returns to idle. -/
def handleFileSelect (parse : EncodedImage → ParseOutcome)
    (files : List EncodedImage) (s : AppState) : AppState :=
  match files.head? with
  | none => s
  | some file =>
      let s1 := fileSelectReset file s
      { s1 with metadata := extractRecord (parse file), processingState := .idle }

/-- Environment outcomes of the external facilities a clean attempt
depends on: image decode (img.onload versus onerror), 2d context
acquisition, canvas.toBlob producing a blob, and the FileReader
producing a string data URL. -/
structure CleanEnv where
  decodeOk : Bool
  ctxOk : Bool
  blobOk : Bool
  readOk : Bool
deriving DecidableEq

/-- Environment in which every external step succeeds. -/
def envAllOk : CleanEnv :=
  { decodeOk := true, ctxOk := true, blobOk := true, readOk := true }

/-- Generic failure message of the clean path (source: the catch
block of handleCleanMetadata). -/
def genericCleanError : String := "Failed to clean metadata. Please try again."

/-- Failure message of the add-to-design path (source: the catch
block of handleClick). -/
def addFailError : String := "Failed to add image to design. Please try again."

/-- MIME type passed to the encoder (source: the toBlob call):
image/png when the selected file declares image/png, image/jpeg for
every other declared type. -/
def outputMime (t : String) : String :=
  if t = "image/png" then "image/png" else "image/jpeg"

/-- Modelled from the spec (section 4.2): the canvas encoder
serializes the drawing surface alone and writes no auxiliary metadata
segments; the quality argument applies to the lossy JPEG target and
is ignored for PNG. This definition stands in for the browser
canvas.toBlob facility, which is not code of this repository. -/
def encodeCanvas (c : Canvas) (mime : String) (q : ℚ) : EncodedImage :=
  { mime := mime
    natWidth := c.width
    natHeight := c.height
    pixels := c.pixels
    tags := none
    encQuality := if mime = "image/jpeg" then some q else none }

/-- The toBlob call, which may produce no blob (source: the promise
around canvas.toBlob; the null branch rejects). -/
def canvasToBlob (ok : Bool) (c : Canvas) (mime : String) (q : ℚ) :
    Option EncodedImage :=
  if ok then some (encodeCanvas c mime q) else none

/-- State updates of the catch block of handleCleanMetadata: the one
generic error message, back to idle. -/
def cleanFail (s : AppState) : AppState :=
  { s with error := some genericCleanError, processingState := .idle }

/-- Synchronous prefix of handleCleanMetadata, before the first
await (source: the guard and the first two set calls): a missing
selected file returns immediately, otherwise the session enters the
cleaning state with the error cleared. -/
def cleanBegin (s : AppState) : AppState :=
  match s.selectedFile with
  | none => s
  | some _ => { s with processingState := .cleaning, error := none }

/-- Continuation of handleCleanMetadata after the awaits resolve
(source: the body of the try and the catch). It closes over the
captured file, not over the session state: the decode loads the
captured file, the canvas takes its natural dimensions and raster,
toBlob targets outputMime at quality 0.95, and on success the cleaned
URL, the size and the done state are stored into whatever state is
current at completion time, with no check that the captured file is
still the selected one. Every failure lands in the catch. -/
def cleanFinish (file : EncodedImage) (env : CleanEnv) (s : AppState) : AppState :=
  if env.decodeOk = false then cleanFail s
  else if env.ctxOk = false then cleanFail s
  else
    match canvasToBlob env.blobOk
        { width := file.natWidth, height := file.natHeight, pixels := file.pixels }
        (outputMime file.mime) (95 / 100 : ℚ) with
    | none => cleanFail s
    | some blob =>
        if env.readOk = false then cleanFail s
        else
          { s with
            cleanedImageUrl := some blob
            cleanedImageSize := some (file.natWidth, file.natHeight)
            processingState := .done }

/-- Clean handler run without interleaving: the begin phase followed
by the finish phase on the same session state (source:
handleCleanMetadata). -/
def handleCleanMetadata (env : CleanEnv) (s : AppState) : AppState :=
  match s.selectedFile with
  | none => s
  | some file => cleanFinish file env (cleanBegin s)

/-- Environment outcomes of the add-to-design path: whether an
addElement capability is supported, and whether the upload and the
insertion succeed. -/
structure ClickEnv where
  addElementSupported : Bool
  uploadOk : Bool
  addOk : Bool
deriving DecidableEq

/-- Click-to-add handler (source: handleClick): the guard returns
when the cleaned URL, the selected file, the addElement capability or
the cleaned size is absent; the success path stores no session state;
an upload or insertion failure stores the generic add failure. -/
def handleClick (env : ClickEnv) (s : AppState) : AppState :=
  if s.cleanedImageUrl.isNone || s.selectedFile.isNone ||
      env.addElementSupported = false || s.cleanedImageSize.isNone then s
  else if env.uploadOk && env.addOk then s
  else { s with error := some addFailError }

/-- Drag payload handed to the host (source: the dragData value). -/
structure DragData where
  previewUrl : EncodedImage
  fullWidth : Nat
  fullHeight : Nat
deriving DecidableEq

/-- Drag handler (source: handleDragStart): the guard returns with no
drag initiated when the cleaned URL, the selected file or the cleaned
size is absent; otherwise a drag with the cleaned image is started.
The handler stores no session state in either case. -/
def handleDragStart (s : AppState) : AppState × Option DragData :=
  match s.cleanedImageUrl, s.selectedFile, s.cleanedImageSize with
  | some url, some _, some sz =>
      (s, some { previewUrl := url, fullWidth := sz.1, fullHeight := sz.2 })
  | _, _, _ => (s, none)

/-! Concrete fixtures used by witnesses and counterexamples. -/

/-- Tag set carrying only a camera make. -/
def dMake : ExifData := { Make := some "Canon" }

/-- Tag set whose ImageWidth is present with value zero while
ExifImageWidth carries 5. -/
def widthZeroTags : ExifData := { ImageWidth := some 0, ExifImageWidth := some 5 }

/-- Record populated only with the informational fields. -/
def infoOnlyRecord : MetadataInfo :=
  { software := some "GIMP"
    copyright := some "someone"
    imageWidth := some 10
    imageHeight := some 20 }

/-- Record produced by projecting an empty tag set: every named field
undefined, raw holding the empty mapping. -/
def allUndefinedRecord : MetadataInfo := projectExif {}

/-- JPEG file carrying a camera-make tag. -/
def fileA : EncodedImage :=
  { mime := "image/jpeg", natWidth := 2, natHeight := 3, pixels := [7, 8],
    tags := some dMake }

/-- PNG file carrying no metadata segments. -/
def fileB : EncodedImage :=
  { mime := "image/png", natWidth := 4, natHeight := 5, pixels := [1] }

/-- Parser behaviour yielding a null result on every stream. -/
def parseNone : EncodedImage → ParseOutcome := fun _ => .ok none

/-- Click environment in which every external step succeeds. -/
def clickEnvOk : ClickEnv :=
  { addElementSupported := true, uploadOk := true, addOk := true }

/-- Clean environment whose image decode fails. -/
def envDecodeFail : CleanEnv :=
  { decodeOk := false, ctxOk := true, blobOk := true, readOk := true }

/-- Session state with fileA selected, nothing else yet produced. -/
def sSelectedA : AppState := { initialState with selectedFile := some fileA }

/-- Session state holding artifacts of a previous image: a metadata
record, cleaned bytes and cleaned dimensions. -/
def sDirty : AppState :=
  { selectedFile := some fileA
    imagePreview := some fileA
    metadata := .full (projectExif dMake)
    processingState := .done
    error := none
    cleanedImageUrl := some (encodeCanvas
      { width := 2, height := 3, pixels := [7, 8] } "image/jpeg" (95 / 100 : ℚ))
    cleanedImageSize := some (9, 9) }

/-! Claim theorems. -/

/-- C3: the has-risk flag is true iff at least one of the GPS pair,
dateTimeOriginal, cameraMake, cameraModel or artist is populated, and
is false on every record whose risk-bearing fields are all absent
(in particular one populated only with software, copyright,
imageWidth, imageHeight). -/
theorem classify_characterisation (m : MetadataInfo) :
    (hasPrivacyRisks (.full m) = true ↔ ∃ f ∈ riskFields, fieldPopulated m f = true) ∧
    ((∀ f ∈ riskFields, fieldPopulated m f = false) → hasPrivacyRisks (.full m) = false) := by
  have hiff : hasPrivacyRisks (.full m) = true ↔
      ∃ f ∈ riskFields, fieldPopulated m f = true := by
    simp [hasPrivacyRisks, riskFields, fieldPopulated]
    tauto
  refine ⟨hiff, fun hall => ?_⟩
  by_contra hne
  have : hasPrivacyRisks (.full m) = true := by
    cases h : hasPrivacyRisks (.full m)
    · exact absurd h hne
    · rfl
  rcases hiff.mp this with ⟨f, hmem, hpop⟩
  rw [hall f hmem] at hpop
  exact Bool.false_ne_true hpop

/-- Witness for C3 at a record populated only with the informational
fields: the classifier reports no risk. -/
theorem classify_characterisation_witness :
    hasPrivacyRisks (.full infoOnlyRecord) = false :=
  (classify_characterisation infoOnlyRecord).2 (by decide)

/-- C5 counterexample: a tag set whose ImageWidth is present with
value zero does not win over ExifImageWidth; the projected field
takes the second tag, contradicting first-present-wins at zero. -/
theorem first_wins_zero_counterexample :
    widthZeroTags.ImageWidth = some 0 ∧
    (projectExif widthZeroTags).imageWidth = some 5 ∧
    (projectExif widthZeroTags).imageWidth ≠ some 0 := by decide

/-- C5 amended: the projection follows the fixed name-mapping table;
for imageWidth and imageHeight the first tag wins only when present
with a nonzero value, a first tag present with value zero falls
through to the second tag, absence likewise. -/
theorem field_mapping (d : ExifData) :
    (projectExif d).dateTime = d.DateTime ∧
    (projectExif d).dateTimeOriginal = d.DateTimeOriginal ∧
    (projectExif d).make = d.Make ∧
    (projectExif d).model = d.Model ∧
    (projectExif d).software = d.Software ∧
    (projectExif d).orientation = d.Orientation ∧
    (projectExif d).artist = d.Artist ∧
    (projectExif d).copyright = d.Copyright ∧
    (projectExif d).latitude = d.latitude ∧
    (projectExif d).longitude = d.longitude ∧
    (projectExif d).imageWidth =
      (match d.ImageWidth with
       | some v => if v = 0 then d.ExifImageWidth else some v
       | none => d.ExifImageWidth) ∧
    (projectExif d).imageHeight =
      (match d.ImageHeight with
       | some v => if v = 0 then d.ExifImageHeight else some v
       | none => d.ExifImageHeight) := by
  refine ⟨rfl, rfl, rfl, rfl, rfl, rfl, rfl, rfl, rfl, rfl, ?_, ?_⟩ <;>
    simp [projectExif, jsOrNat]

/-- C6 counterexample: the record projected from an empty tag set has
zero populated named fields and its raw key holds an empty mapping,
yet the no-metadata message is not shown for it, because the literal
assigns all thirteen keys. -/
theorem no_metadata_display_counterexample :
    namedPopulatedCount allUndefinedRecord = 0 ∧
    allUndefinedRecord.raw = some ({} : ExifData) ∧
    showNoMetadata (.full allUndefinedRecord) = false := by decide

/-- C6 amended: the no-metadata message is shown exactly for the
empty object literal, set when parsing failed or yielded nothing;
every successfully parsed record carries all thirteen keys and is
reported as detected metadata, even when no named field is populated,
and in particular whenever at least one named field is populated. -/
theorem no_metadata_display (m : MetadataInfo) :
    showNoMetadata .emptyObj = true ∧
    showNoMetadata (.full m) = false := by
  exact ⟨rfl, rfl⟩

/-- C2: for every parser behaviour and every selected byte stream the
file-selection handler produces a metadata record: the stored state
is exactly the absorbed parse outcome, a thrown parse error and a
null parse result each degrade to the empty record, the record is
never left null, and the session returns to idle. Totality and the
absence of an outward fault are carried by the embedding itself: the
handler is a total function into AppState. -/
theorem extraction_totality (parse : EncodedImage → ParseOutcome)
    (files : List EncodedImage) (s : AppState) (file : EncodedImage)
    (hf : files.head? = some file) :
    (handleFileSelect parse files s).metadata = extractRecord (parse file) ∧
    (parse file = .err → (handleFileSelect parse files s).metadata = .emptyObj) ∧
    (parse file = .ok none → (handleFileSelect parse files s).metadata = .emptyObj) ∧
    (handleFileSelect parse files s).metadata ≠ .null ∧
    (handleFileSelect parse files s).processingState = .idle := by
  have hs : handleFileSelect parse files s =
      { fileSelectReset file s with
        metadata := extractRecord (parse file), processingState := .idle } := by
    simp [handleFileSelect, hf]
  rw [hs]
  refine ⟨rfl, fun he => by simp [he, extractRecord],
    fun hn => by simp [hn, extractRecord], ?_, rfl⟩
  show extractRecord (parse file) ≠ .null
  cases hp : parse file with
  | err => simp [extractRecord]
  | ok d => cases d <;> simp [extractRecord]

/-- Witness for C2: a parser yielding a null result on a concrete
file degrades to the empty record. -/
theorem extraction_totality_witness :
    (handleFileSelect parseNone [fileB] initialState).metadata = .emptyObj :=
  (extraction_totality parseNone [fileB] initialState fileB rfl).2.2.1 rfl

/-- C8 counterexample: selecting a new file over a session holding a
previous cleaned image leaves the cleaned dimensions in place, both
at the pre-parse reset point and in the final state, contradicting
the claim that all three derived artifacts are cleared. -/
theorem stale_size_counterexample :
    (fileSelectReset fileB sDirty).cleanedImageSize = some (9, 9) ∧
    (handleFileSelect parseNone [fileB] sDirty).cleanedImageSize = some (9, 9) ∧
    sDirty.cleanedImageSize = some (9, 9) := by decide

/-- C8 amended: before any state for the new image is produced, file
selection clears the metadata record, the cleaned image bytes and the
error, but leaves the cleaned image dimensions unchanged; a reset
clears everything, dimensions included. -/
theorem new_image_invalidation (s : AppState) (file : EncodedImage) :
    ((fileSelectReset file s).metadata = .null ∧
     (fileSelectReset file s).cleanedImageUrl = none ∧
     (fileSelectReset file s).error = none ∧
     (fileSelectReset file s).cleanedImageSize = s.cleanedImageSize) ∧
    (handleReset s = initialState ∧
     (handleReset s).metadata = .null ∧
     (handleReset s).cleanedImageUrl = none ∧
     (handleReset s).cleanedImageSize = none) :=
  ⟨⟨rfl, rfl, rfl, rfl⟩, ⟨rfl, rfl, rfl, rfl⟩⟩

/-- C10: each handler is a silent no-op when its precondition is
unmet: clean with no selected file, click and drag with the cleaned
URL, the selected file or the cleaned size absent, and file selection
with an empty file list, all return the state unchanged, and the
drag handler initiates no drag. -/
theorem guard_noop (cenv : CleanEnv) (kenv : ClickEnv)
    (parse : EncodedImage → ParseOutcome) (s : AppState) :
    (s.selectedFile = none → handleCleanMetadata cenv s = s) ∧
    ((s.cleanedImageUrl = none ∨ s.selectedFile = none ∨ s.cleanedImageSize = none) →
      handleClick kenv s = s ∧ handleDragStart s = (s, none)) ∧
    handleFileSelect parse [] s = s := by
  refine ⟨fun h => by simp [handleCleanMetadata, h], fun h => ?_, rfl⟩
  cases hu : s.cleanedImageUrl <;> cases hf : s.selectedFile <;>
    cases hz : s.cleanedImageSize <;>
      simp_all [handleClick, handleDragStart]

/-- Witness for C10 at the initial state, where every precondition is
unmet: all four handlers leave the state untouched. -/
theorem guard_noop_witness :
    handleCleanMetadata envAllOk initialState = initialState ∧
    handleClick clickEnvOk initialState = initialState ∧
    handleDragStart initialState = (initialState, none) ∧
    handleFileSelect parseNone [] initialState = initialState := by
  have h := guard_noop envAllOk clickEnvOk parseNone initialState
  exact ⟨h.1 rfl, (h.2.1 (Or.inl rfl)).1, (h.2.1 (Or.inl rfl)).2, h.2.2⟩

/-- C4: a successful clean encodes to PNG exactly when the declared
type of the source is image/png and to JPEG at quality 0.95
otherwise, and the stored cleaned dimensions and the dimensions of
the output bytes equal the natural decoded dimensions of the
source. -/
theorem clean_output_format (env : CleanEnv) (s : AppState) (file : EncodedImage)
    (hf : s.selectedFile = some file) (henv : env = envAllOk) :
    ∃ out, (handleCleanMetadata env s).cleanedImageUrl = some out ∧
      (out.mime = "image/png" ↔ file.mime = "image/png") ∧
      (file.mime ≠ "image/png" →
        out.mime = "image/jpeg" ∧ out.encQuality = some (95 / 100 : ℚ)) ∧
      out.natWidth = file.natWidth ∧ out.natHeight = file.natHeight ∧
      (handleCleanMetadata env s).cleanedImageSize =
        some (file.natWidth, file.natHeight) := by
  subst henv
  refine ⟨encodeCanvas
      { width := file.natWidth, height := file.natHeight, pixels := file.pixels }
      (outputMime file.mime) (95 / 100 : ℚ), ?_, ?_, ?_, rfl, rfl, ?_⟩
  · simp [handleCleanMetadata, hf, cleanBegin, cleanFinish, canvasToBlob, envAllOk]
  · by_cases hm : file.mime = "image/png" <;>
      simp [encodeCanvas, outputMime, hm]
  · intro hm
    simp [encodeCanvas, outputMime, hm]
  · simp [handleCleanMetadata, hf, cleanBegin, cleanFinish, canvasToBlob, envAllOk]

/-- Witness for C4 on a selected JPEG file in the all-success
environment. -/
theorem clean_output_format_witness :
    ∃ out, (handleCleanMetadata envAllOk sSelectedA).cleanedImageUrl = some out ∧
      (out.mime = "image/png" ↔ fileA.mime = "image/png") ∧
      (fileA.mime ≠ "image/png" →
        out.mime = "image/jpeg" ∧ out.encQuality = some (95 / 100 : ℚ)) ∧
      out.natWidth = fileA.natWidth ∧ out.natHeight = fileA.natHeight ∧
      (handleCleanMetadata envAllOk sSelectedA).cleanedImageSize =
        some (fileA.natWidth, fileA.natHeight) :=
  clean_output_format envAllOk sSelectedA fileA rfl rfl

/-- C7: every failing clean attempt, whichever of the decode, the
context acquisition, the serialization or the data-URL read failed,
stores the single generic failure message, returns the session to
idle, and leaves the cleaned bytes and dimensions exactly as they
were before the attempt. -/
theorem clean_failure_generic (env : CleanEnv) (s : AppState) (file : EncodedImage)
    (hf : s.selectedFile = some file)
    (hfail : (env.decodeOk && env.ctxOk && env.blobOk && env.readOk) = false) :
    (handleCleanMetadata env s).error = some genericCleanError ∧
    (handleCleanMetadata env s).processingState = .idle ∧
    (handleCleanMetadata env s).cleanedImageUrl = s.cleanedImageUrl ∧
    (handleCleanMetadata env s).cleanedImageSize = s.cleanedImageSize := by
  rcases env with ⟨d, c, b, r⟩
  cases d <;> cases c <;> cases b <;> cases r <;>
    simp_all [handleCleanMetadata, hf, cleanBegin, cleanFinish, cleanFail,
      canvasToBlob]

/-- Witness for C7: a decode failure on a selected file yields the
generic message, idle state, and untouched cleaned artifacts. -/
theorem clean_failure_generic_witness :
    (handleCleanMetadata envDecodeFail sSelectedA).error = some genericCleanError ∧
    (handleCleanMetadata envDecodeFail sSelectedA).processingState = .idle ∧
    (handleCleanMetadata envDecodeFail sSelectedA).cleanedImageUrl =
      sSelectedA.cleanedImageUrl ∧
    (handleCleanMetadata envDecodeFail sSelectedA).cleanedImageSize =
      sSelectedA.cleanedImageSize :=
  clean_failure_generic envDecodeFail sSelectedA fileA rfl rfl

/-- C1: for a selected source carrying at least one populated
metadata field, a successful clean produces bytes holding no metadata
segments and exactly the decoded raster of the source; passing those
bytes back through the extraction pipeline yields the empty record,
with no named field recoverable. -/
theorem clean_strips_metadata (env : CleanEnv) (s : AppState)
    (file : EncodedImage) (d : ExifData)
    (hf : s.selectedFile = some file)
    (_htags : file.tags = some d)
    (_hpop : 1 ≤ namedPopulatedCount (projectExif d))
    (henv : env = envAllOk) :
    ∃ out, (handleCleanMetadata env s).cleanedImageUrl = some out ∧
      out.tags = none ∧
      out.pixels = file.pixels ∧
      extractOf out = .emptyObj ∧
      ∀ f : FieldName, metaPopulated (extractOf out) f = false := by
  subst henv
  refine ⟨encodeCanvas
      { width := file.natWidth, height := file.natHeight, pixels := file.pixels }
      (outputMime file.mime) (95 / 100 : ℚ), ?_, rfl, rfl, rfl, fun f => rfl⟩
  simp [handleCleanMetadata, hf, cleanBegin, cleanFinish, canvasToBlob, envAllOk]

/-- Witness for C1 on a JPEG source carrying a camera-make tag. -/
theorem clean_strips_metadata_witness :
    ∃ out, (handleCleanMetadata envAllOk sSelectedA).cleanedImageUrl = some out ∧
      out.tags = none ∧
      out.pixels = fileA.pixels ∧
      extractOf out = .emptyObj ∧
      ∀ f : FieldName, metaPopulated (extractOf out) f = false :=
  clean_strips_metadata envAllOk sSelectedA fileA dMake rfl rfl (by decide) rfl

/-- C9: concrete run refuting stale-result dropping. A clean starts
on the selected fileA; a reset replaces the session state; the clean
then completes against the post-reset state, where no file is
selected, and its result is nevertheless stored: the cleaned bytes
become fileA's re-encoding and the session enters the done state.
The finish phase performs no identity check. -/
theorem stale_clean_result_after_reset :
    (handleReset (cleanBegin sSelectedA)).selectedFile = none ∧
    (cleanFinish fileA envAllOk (handleReset (cleanBegin sSelectedA))).cleanedImageUrl ≠ none ∧
    (cleanFinish fileA envAllOk (handleReset (cleanBegin sSelectedA))).processingState = .done ∧
    (cleanFinish fileA envAllOk (handleReset (cleanBegin sSelectedA))).cleanedImageSize =
      some (fileA.natWidth, fileA.natHeight) := by decide

end MetaCleaner
